import Mathlib

/-!
Verification development for a Telegram verification bot (Node.js, Telegraf +
Firebase Firestore).  The bot issues one-time codes after a user shares their
phone number, and offers an admin-only multi-step dialog that mints batches of
resource access codes.

The definitions below are a shallow embedding of the handlers in the source
file (the main bot script): Firestore collections become association lists,
the in-memory `addCodeSessions` Map becomes an association list keyed by the
numeric Telegram user id, `Math.random()` becomes explicit random-input
parameters, and `FieldValue.serverTimestamp()` becomes an explicit `now : Nat`
parameter.  Outbound replies are modelled as an inductive `Reply`; delivery of
replies is external transport and is assumed not to fail.
-/

/-- Association list used to model both Firestore collections (string keys)
and the in-memory JS `Map` (numeric keys). -/
abbrev Kv (κ α : Type) : Type := List (κ × α)

namespace Kv

variable {κ α : Type} [BEq κ]

/-- Lookup by key: models `collection.doc(k).get()` / `map.get(k)`. -/
def get (c : Kv κ α) (k : κ) : Option α :=
  (List.find? (fun e => e.1 == k) c).map (fun e => e.2)

/-- Overwriting insert: models `doc(k).set(v)` / `map.set(k, v)` (a document
set fully replaces any existing document at that key). -/
def set (c : Kv κ α) (k : κ) (v : α) : Kv κ α :=
  (k, v) :: List.filter (fun e => !(e.1 == k)) c

/-- Delete by key: models `doc(k).delete()` / `map.delete(k)`. -/
def del (c : Kv κ α) (k : κ) : Kv κ α :=
  List.filter (fun e => !(e.1 == k)) c

/-- Number of records stored at a given key. -/
def countKey (c : Kv κ α) (k : κ) : Nat :=
  (List.filter (fun e => e.1 == k) c).length

end Kv

/-- Decimal digits of `n`, most significant first, computed with structural
fuel so the kernel can evaluate it.  `decDigitsCore (n+1) n` always has enough
fuel. -/
def decDigitsCore : Nat → Nat → List Nat
  | 0, _ => []
  | fuel + 1, n => if n < 10 then [n] else decDigitsCore fuel (n / 10) ++ [n % 10]

/-- Decimal digits of `n`, most significant first. -/
def decDigitsBE (n : Nat) : List Nat := decDigitsCore (n + 1) n

/-- The ASCII character for a single decimal digit. -/
def decDigitChar (d : Nat) : Char := Char.ofNat (48 + d)

/-- Models JavaScript `Number.prototype.toString()` (radix 10) on a
nonnegative integer value: its decimal digit string, no sign, no leading
zeros (and `"0"` for zero). -/
def jsNumToString (n : Nat) : String := String.mk ((decDigitsBE n).map decDigitChar)

/-- The numeric value denoted by a string of decimal digit characters
(used to state that an OTP string denotes its intended value). -/
def decValue (s : String) : Nat :=
  s.data.foldl (fun a c => 10 * a + (c.toNat - 48)) 0

/-- Models `generateOTP`:
`Math.floor(100000 + Math.random() * 900000).toString()`.
`Math.random()` ranges over `[0, 1)`, so the floored value is `100000 + r`
for some `r < 900000`; the random input is the parameter `r`. -/
def generateOTP (r : Fin 900000) : String := jsNumToString (100000 + r.val)

/-- An uppercase base-36 digit character as produced by
`Number.prototype.toString(36)` followed by `.toUpperCase()`:
`0`–`9` for values below ten, `A`–`Z` otherwise. -/
def base36CharUpper (d : Fin 36) : Char :=
  if d.val < 10 then Char.ofNat (48 + d.val) else Char.ofNat (65 + (d.val - 10))

/-- Models `generateResourceCode`:
`` `REDM-${Math.random().toString(36).substring(2, 8).toUpperCase()}` ``.
`frac` is the base-36 fractional digit sequence that `toString(36)` prints
for the double returned by `Math.random()`: for `0 < x < 1` the output is
`"0."` followed by the digits of `x`s terminating base-36 expansion with
trailing zeros omitted (e.g. `x = 0.5` prints `"0.i"`, a single digit 18),
and for `x = 0` the output is `"0"`, i.e. no fractional digits at all.
`substring(2, 8)` then takes at most the first six of those digits. -/
def generateResourceCode (frac : List (Fin 36)) : String :=
  "REDM-" ++ String.mk ((frac.take 6).map base36CharUpper)

/-- A `pending_verifications` document (key: the user id rendered in
decimal). -/
structure PendingVerification where
  session_id : String
  timestamp : Nat
deriving Repr, DecidableEq

/-- An `otp_sessions` document (key: the website-supplied session id). -/
structure OtpSession where
  otp : String
  telegram_id : Nat
  telegram_name : String
  telegram_username : String
  phone_number : String
  verified : Bool
  created_at : Nat
deriving Repr, DecidableEq

/-- An `access_codes` document (auto-generated document id, so the
collection is modelled as a plain list in creation order). -/
structure AccessCode where
  code : String
  resourceName : String
  downloadUrl : String
  isUsed : Bool
  created_at : Nat
deriving Repr, DecidableEq

/-- The Firestore state visible to the bot: the three collections. -/
structure FireStore where
  pending_verifications : Kv String PendingVerification
  otp_sessions : Kv String OtpSession
  access_codes : List AccessCode
deriving DecidableEq

/-- The `step` field of an in-memory `addCodeSessions` entry. -/
inductive Step
  | ASK_COUNT
  | ASK_NAME
  | ASK_LINK
  | PREVIEW
deriving Repr, DecidableEq

/-- An in-memory `addCodeSessions` entry.  In JS the `count`, `name`, `link`
and `codes` fields are absent (`undefined`) until the corresponding dialog
step sets them, hence `Option`. -/
structure AddCodeSession where
  step : Step
  count : Option Nat := none
  name : Option String := none
  link : Option String := none
  codes : Option (List String) := none
deriving Repr, DecidableEq

/-- The in-memory `addCodeSessions : Map<number, session>`. -/
abbrev SessionMap : Type := Kv Nat AddCodeSession

/-- Outbound replies, one constructor per distinct message the modelled
handlers can send. -/
inductive Reply
  | welcome
  | sharePrompt
  | systemError
  | unauthorized
  | askCount
  | invalidNumber
  | askName
  | askLink
  | preview (name : Option String) (link : String) (codes : List String)
  | cbSessionExpired
  | addedCodes (count : Option Nat) (name : String)
  | dbError
  | ownContactError
  | sessionExpired
  | contactError
  | otpSuccess (otp : String)
deriving Repr, DecidableEq

/-- Outcome of the `bot.on('text')` middleware: pass the update on to the
following middleware (`next()`), send a reply, or consume the update with no
visible effect at all. -/
inductive TextOutcome
  | next
  | reply (r : Reply)
  | silent
deriving Repr, DecidableEq

/-- Models `[user.first_name, user.last_name].filter(Boolean).join(' ')`:
an absent or empty component is dropped (JS `filter(Boolean)` removes both
`undefined` and `""`). -/
def joinName (first : String) (last : Option String) : String :=
  String.intercalate " " (List.filter (fun s => !(s == "")) [first, last.getD ""])

/-- Models `user.username || 'No Username'` (JS `||` also replaces the empty
string, which is falsy). -/
def usernameOr (u : Option String) : String :=
  match u with
  | some s => if s == "" then "No Username" else s
  | none => "No Username"

/-- Models the `bot.start` handler.  `payload` is `ctx.startPayload`, which
is `""` when `/start` carries no deep-link payload (and JS `if (!sessionId)`
treats `""` as absent).  `setOk` says whether the single
`pending_verifications` document write succeeds; on failure the `catch`
block replies with a system error and no state was written. -/
def startHandler (userId : Nat) (payload : String) (now : Nat) (setOk : Bool)
    (st : FireStore) : FireStore × Reply :=
  if payload == "" then (st, Reply.welcome)
  else if setOk then
    let doc : PendingVerification := { session_id := payload, timestamp := now }
    let pv := Kv.set st.pending_verifications (jsNumToString userId) doc
    ({ st with pending_verifications := pv }, Reply.sharePrompt)
  else (st, Reply.systemError)

/-- Which of the three Firestore operations inside the contact handler's
`try` block succeed: the `pending_verifications` read, the `otp_sessions`
write, and the `pending_verifications` delete.  The first failure jumps to
the `catch` block, keeping whatever had already committed. -/
structure ContactDb where
  getOk : Bool
  setOk : Bool
  delOk : Bool
deriving Repr, DecidableEq

/-- Models the `bot.on('contact')` handler.  `contactUserId` is
`ctx.message.contact.user_id`, `userId` is `ctx.from.id`; `r` is the random
input of the single `generateOTP()` call; `now` stands for the server
timestamp. -/
def contactHandler (userId : Nat) (first : String) (last usern : Option String)
    (contactUserId : Nat) (phone : String) (r : Fin 900000) (now : Nat)
    (dbb : ContactDb) (st : FireStore) : FireStore × Reply :=
  if !(contactUserId == userId) then (st, Reply.ownContactError)
  else if !dbb.getOk then (st, Reply.contactError)
  else
    match Kv.get st.pending_verifications (jsNumToString userId) with
    | none => (st, Reply.sessionExpired)
    | some pending =>
      if !dbb.setOk then (st, Reply.contactError)
      else
        let doc : OtpSession :=
          { otp := generateOTP r, telegram_id := userId,
            telegram_name := joinName first last,
            telegram_username := usernameOr usern,
            phone_number := phone, verified := false, created_at := now }
        let st1 : FireStore :=
          { st with otp_sessions := Kv.set st.otp_sessions pending.session_id doc }
        if !dbb.delOk then (st1, Reply.contactError)
        else
          let pv := Kv.del st1.pending_verifications (jsNumToString userId)
          ({ st1 with pending_verifications := pv }, Reply.otpSuccess (generateOTP r))

/-- Models `bot.command('addcodes')`: only the configured admin id may start
the dialog; anyone else gets an unauthorized reply and nothing changes.  The
handler touches no Firestore collection at all (its type takes and returns
only the in-memory session map). -/
def addcodesHandler (userId adminId : Nat) (sessions : SessionMap) :
    SessionMap × Reply :=
  if !(userId == adminId) then (sessions, Reply.unauthorized)
  else (Kv.set sessions userId ({ step := Step.ASK_COUNT } : AddCodeSession), Reply.askCount)

/-- The numeric value of a decimal digit character, if it is one. -/
def decDigitVal (c : Char) : Option Nat :=
  if 48 ≤ c.toNat ∧ c.toNat ≤ 57 then some (c.toNat - 48) else none

/-- The numeric value of a hexadecimal digit character, if it is one. -/
def hexDigitVal (c : Char) : Option Nat :=
  if 48 ≤ c.toNat ∧ c.toNat ≤ 57 then some (c.toNat - 48)
  else if 97 ≤ c.toNat ∧ c.toNat ≤ 102 then some (c.toNat - 87)
  else if 65 ≤ c.toNat ∧ c.toNat ≤ 70 then some (c.toNat - 55)
  else none

/-- The longest prefix of digit values recognised by `p`. -/
def takeDigitVals (p : Char → Option Nat) : List Char → List Nat
  | [] => []
  | c :: cs =>
    match p c with
    | some d => d :: takeDigitVals p cs
    | none => []

/-- The value of a most-significant-first digit list in base `b`. -/
def digitListVal (b : Nat) (ds : List Nat) : Nat :=
  ds.foldl (fun a d => b * a + d) 0

/-- Models JavaScript `String.prototype.trim()`: drop leading and trailing
whitespace.  (Restricted to the ASCII whitespace characters recognised by
`Char.isWhitespace`; JS additionally trims some exotic Unicode whitespace,
which nothing in the dialog depends on.)  Written over the character list
with structural recursion so the kernel can evaluate it. -/
def jsTrim (s : String) : String :=
  String.mk (((s.data.dropWhile Char.isWhitespace).reverse.dropWhile Char.isWhitespace).reverse)

/-- Models JavaScript `parseInt(string)` with no radix argument (ECMA-262
`parseInt`): skip whitespace, read an optional sign, then either a `0x`/`0X`
prefix followed by hexadecimal digits, or a longest prefix of decimal digits;
`none` models a `NaN` result.  The JS result is a double, so values at or
above `2^53` lose precision; the handler below only compares the result
against 0 and 50, where the model and the double agree. -/
def jsParseInt (s : String) : Option Int :=
  let cs := (jsTrim s).data
  let signed : Int × List Char :=
    match cs with
    | '-' :: rest => (-1, rest)
    | '+' :: rest => (1, rest)
    | _ => (1, cs)
  let body : Option Nat :=
    match signed.2 with
    | '0' :: 'x' :: rest =>
      match takeDigitVals hexDigitVal rest with
      | [] => none
      | ds => some (digitListVal 16 ds)
    | '0' :: 'X' :: rest =>
      match takeDigitVals hexDigitVal rest with
      | [] => none
      | ds => some (digitListVal 16 ds)
    | other =>
      match takeDigitVals decDigitVal other with
      | [] => none
      | ds => some (digitListVal 10 ds)
  body.map (fun n => signed.1 * (n : Int))

/-- Models the `bot.on('text')` middleware.  If the sender has no
`addCodeSessions` entry the update is passed to `next()`.  Otherwise the
trimmed text drives the dialog `switch`; note that the `switch` has no
`PREVIEW` case and no `default`, so a text sent while the session is in the
`PREVIEW` step is consumed silently: no reply, no session change, and no
`next()`.  The handler never touches Firestore (its type has no `FireStore`
argument).  `rand` supplies the random input of the i-th
`generateResourceCode()` call made when leaving `ASK_LINK`. -/
def textHandler (userId : Nat) (text : String) (rand : Nat → List (Fin 36))
    (sessions : SessionMap) : SessionMap × TextOutcome :=
  match Kv.get sessions userId with
  | none => (sessions, TextOutcome.next)
  | some s =>
    let input := jsTrim text
    match s.step with
    | Step.ASK_COUNT =>
      match jsParseInt input with
      | none => (sessions, TextOutcome.reply Reply.invalidNumber)
      | some n =>
        if n ≤ 0 ∨ 50 < n then (sessions, TextOutcome.reply Reply.invalidNumber)
        else
          let s1 : AddCodeSession := { s with count := some n.toNat, step := Step.ASK_NAME }
          (Kv.set sessions userId s1, TextOutcome.reply Reply.askName)
    | Step.ASK_NAME =>
      let s1 : AddCodeSession := { s with name := some input, step := Step.ASK_LINK }
      (Kv.set sessions userId s1, TextOutcome.reply Reply.askLink)
    | Step.ASK_LINK =>
      let codes := (List.range (s.count.getD 0)).map (fun i => generateResourceCode (rand i))
      let s1 : AddCodeSession :=
        { s with link := some input, codes := some codes, step := Step.PREVIEW }
      (Kv.set sessions userId s1, TextOutcome.reply (Reply.preview s.name input codes))
    | Step.PREVIEW => (sessions, TextOutcome.silent)

/-- The batch of `access_codes` documents built by the `confirm_add`
handler's `forEach` loop: one document per in-memory code, each with
`isUsed: false` and the session's stored name and link. -/
def batchDocs (codes : List String) (name link : String) (now : Nat) : List AccessCode :=
  codes.map (fun c =>
    ({ code := c, resourceName := name, downloadUrl := link,
       isUsed := false, created_at := now } : AccessCode))

/-- Models `bot.action('confirm_add')`.  With no session: a session-expired
callback answer.  With a session: the handler builds one batched write per
generated code and commits the batch; `commitOk` says whether
`batch.commit()` succeeds.  A Firestore batch is all-or-nothing, so on
failure no code is written, the `catch` replies with a database error, and
the session (including its in-memory code list) is left untouched.  If the
session lacks `codes` the `forEach` throws, and if it lacks `name` or `link`
`batch.set` rejects the `undefined` field value — either way the `catch`
replies with the same database error before anything commits. -/
def confirmAddHandler (userId : Nat) (now : Nat) (commitOk : Bool)
    (sessions : SessionMap) (st : FireStore) : SessionMap × FireStore × Reply :=
  match Kv.get sessions userId with
  | none => (sessions, st, Reply.cbSessionExpired)
  | some s =>
    match s.codes, s.name, s.link with
    | some codes, some name, some link =>
      if commitOk then
        (Kv.del sessions userId,
         { st with access_codes := st.access_codes ++ batchDocs codes name link now },
         Reply.addedCodes s.count name)
      else (sessions, st, Reply.dbError)
    | _, _, _ => (sessions, st, Reply.dbError)

/-- Whether a string matches the pattern the specification states for access
codes: the exact prefix `REDM-` followed by exactly 6 characters drawn from
`A`–`Z` and `0`–`9`. -/
def matchesCodePattern (s : String) : Bool :=
  (s.data.length == 11) && (s.data.take 5 == "REDM-".data) &&
    (s.data.drop 5).all (fun c => c.isDigit || (65 ≤ c.toNat && c.toNat ≤ 90))

/-- Whether a string is the canonical decimal numeral of a positive integer
at most 50 (how the claim about the `ASK_COUNT` step reads "input text that
is a positive integer less than or equal to 50"). -/
def denotesPosIntLe50 (s : String) : Bool :=
  (List.range 51).any (fun n => decide (1 ≤ n) && (s == jsNumToString n))

namespace Kv

variable {κ α : Type} [BEq κ] [LawfulBEq κ]

theorem get_set_self (c : Kv κ α) (k : κ) (v : α) : get (set c k v) k = some v := by
  simp [get, set, List.find?_cons_of_pos]

theorem get_del_self (c : Kv κ α) (k : κ) : get (del c k) k = none := by
  simp only [get, del, Option.map_eq_none']
  rw [List.find?_eq_none]
  intro x hx
  have := (List.mem_filter.mp hx).2
  simpa using this

theorem countKey_set (c : Kv κ α) (k : κ) (v : α) : countKey (set c k v) k = 1 := by
  simp only [countKey, set, List.filter_cons]
  simp [List.filter_filter]

end Kv

theorem decDigitChar_isDigit {d : Nat} (h : d < 10) : (decDigitChar d).isDigit = true := by
  interval_cases d <;> decide

theorem decDigitChar_toNat {d : Nat} (h : d < 10) : (decDigitChar d).toNat = 48 + d := by
  interval_cases d <;> decide

theorem decDigitChar_ne_zero {d : Nat} (h1 : d < 10) (h2 : d ≠ 0) : decDigitChar d ≠ '0' := by
  interval_cases d <;> first | exact absurd rfl h2 | decide

theorem foldl_rev_val (l : List Nat) (a : Nat) :
    List.foldl (fun a d => 10 * a + d) a l.reverse =
      a * 10 ^ l.length + Nat.ofDigits 10 l := by
  induction l generalizing a with
  | nil => simp
  | cons d t ih =>
    simp only [List.reverse_cons, List.foldl_append, List.foldl_cons, List.foldl_nil,
      List.length_cons, Nat.ofDigits_cons, ih]
    ring

theorem foldl_digitChar (ds : List Nat) (a : Nat) (h : ∀ d ∈ ds, d < 10) :
    List.foldl (fun a c => 10 * a + (c.toNat - 48)) a (ds.map decDigitChar) =
      List.foldl (fun a d => 10 * a + d) a ds := by
  induction ds generalizing a with
  | nil => rfl
  | cons d t ih =>
    simp only [List.map_cons, List.foldl_cons]
    rw [decDigitChar_toNat (h d (by simp)), Nat.add_sub_cancel_left]
    exact ih _ (fun x hx => h x (by simp [hx]))

theorem decDigitsCore_eq : ∀ fuel n, 0 < n → n < fuel →
    decDigitsCore fuel n = (Nat.digits 10 n).reverse := by
  intro fuel
  induction fuel with
  | zero => intro n h1 h2; omega
  | succ f ih =>
    intro n h1 h2
    rw [decDigitsCore]
    by_cases hn : n < 10
    · rw [if_pos hn]
      rw [Nat.digits_of_lt 10 n (by omega) hn]
      rfl
    · rw [if_neg hn]
      have h10 : 0 < n / 10 := Nat.div_pos (le_of_not_lt hn) (by norm_num)
      have hlt : n / 10 < f := by
        have := Nat.div_lt_self h1 (by norm_num : 1 < 10)
        omega
      rw [ih (n / 10) h10 hlt]
      rw [Nat.digits_def' (b := 10) (by norm_num) h1]
      simp

theorem decDigitsBE_eq (n : Nat) (h : 0 < n) :
    decDigitsBE n = (Nat.digits 10 n).reverse :=
  decDigitsCore_eq (n + 1) n h (by omega)

/-- C8: every value returned by the OTP generator is a string of exactly 6
ASCII digit characters, its decimal value is `100000 + r` and so lies in
`100000`–`999999` inclusive, and its first character is never `'0'`. -/
theorem c8_generateOTP_six_digits (r : Fin 900000) :
    (generateOTP r).length = 6 ∧
    (generateOTP r).data.all Char.isDigit = true ∧
    decValue (generateOTP r) = 100000 + r.val ∧
    100000 ≤ decValue (generateOTP r) ∧
    decValue (generateOTP r) ≤ 999999 ∧
    (generateOTP r).data.head? ≠ some ('0' : Char) := by
  have hr : r.val < 900000 := r.isLt
  set n := 100000 + r.val with hn
  have hpos : 0 < n := by omega
  have hbe : decDigitsBE n = (Nat.digits 10 n).reverse := decDigitsBE_eq n hpos
  have hlen : (Nat.digits 10 n).length = 6 := by
    rw [Nat.digits_len 10 n (by norm_num) (by omega)]
    have : Nat.log 10 n = 5 :=
      Nat.log_eq_of_pow_le_of_lt_pow (by norm_num; omega) (by norm_num; omega)
    omega
  have hsmall : ∀ d ∈ decDigitsBE n, d < 10 := by
    intro d hd
    rw [hbe, List.mem_reverse] at hd
    exact Nat.digits_lt_base (by norm_num) hd
  have hdata : (generateOTP r).data = (decDigitsBE n).map decDigitChar := rfl
  have hval : decValue (generateOTP r) = n := by
    unfold decValue
    rw [hdata, foldl_digitChar _ _ hsmall, hbe, foldl_rev_val]
    simpa using Nat.ofDigits_digits 10 n
  refine ⟨?_, ?_, hval, by omega, by omega, ?_⟩
  · have hl : (generateOTP r).length = ((decDigitsBE n).map decDigitChar).length := rfl
    rw [hl, List.length_map, hbe, List.length_reverse, hlen]
  · rw [List.all_eq_true]
    intro c hc
    rw [hdata, List.mem_map] at hc
    obtain ⟨d, hd, rfl⟩ := hc
    exact decDigitChar_isDigit (hsmall d hd)
  · rw [hdata, hbe]
    intro hcontra
    rw [List.head?_map, List.head?_reverse] at hcontra
    have hne : Nat.digits 10 n ≠ [] := Nat.digits_ne_nil_iff_ne_zero.mpr (by omega)
    rw [List.getLast?_eq_getLast _ hne] at hcontra
    have hd0 : decDigitChar ((Nat.digits 10 n).getLast hne) = '0' := by
      simpa using hcontra
    have hmem : (Nat.digits 10 n).getLast hne ∈ Nat.digits 10 n := List.getLast_mem hne
    have hlt : (Nat.digits 10 n).getLast hne < 10 := Nat.digits_lt_base (by norm_num) hmem
    exact decDigitChar_ne_zero hlt (Nat.getLast_digit_ne_zero 10 (by omega)) hd0

/-- C2: a contact share whose shared contact belongs to someone other than
the sender only draws the own-contact error reply and leaves the whole
store untouched, whatever the pending state and whatever the database would
have done. -/
theorem c2_foreign_contact_no_mutation (userId contactUserId : Nat)
    (first phone : String) (last usern : Option String) (r : Fin 900000)
    (now : Nat) (dbb : ContactDb) (st : FireStore)
    (h : contactUserId ≠ userId) :
    contactHandler userId first last usern contactUserId phone r now dbb st =
      (st, Reply.ownContactError) := by
  have hb : (contactUserId == userId) = false := beq_eq_false_iff_ne.mpr h
  simp [contactHandler, hb]

/-- Closed instance of `c2_foreign_contact_no_mutation` at a concrete
mismatched contact share. -/
theorem c2_foreign_contact_witness :
    contactHandler 1 "F" none none 2 "+491" ⟨0, by decide⟩ 5
      ⟨true, true, true⟩ ⟨[], [], []⟩ = (⟨[], [], []⟩, Reply.ownContactError) :=
  c2_foreign_contact_no_mutation 1 2 "F" "+491" none none ⟨0, by decide⟩ 5
    ⟨true, true, true⟩ ⟨[], [], []⟩ (by decide)

/-- C3: a contact share from a sender with no PendingVerification record
(and whose read succeeds) draws the session-expired reply and is a pure
no-op on the store, whatever the later write and delete would have done; in
particular a second contact share after a successful first one changes
nothing. -/
theorem c3_no_pending_pure_noop (userId : Nat) (first phone : String)
    (last usern : Option String) (r : Fin 900000) (now : Nat)
    (sOk dOk : Bool) (st : FireStore)
    (h : Kv.get st.pending_verifications (jsNumToString userId) = none) :
    contactHandler userId first last usern userId phone r now
      ⟨true, sOk, dOk⟩ st = (st, Reply.sessionExpired) := by
  simp [contactHandler, h]

/-- Closed instance of `c3_no_pending_pure_noop` on an empty store. -/
theorem c3_no_pending_witness :
    contactHandler 1 "F" none none 1 "+491" ⟨0, by decide⟩ 5
      ⟨true, true, true⟩ ⟨[], [], []⟩ = (⟨[], [], []⟩, Reply.sessionExpired) :=
  c3_no_pending_pure_noop 1 "F" "+491" none none ⟨0, by decide⟩ 5 true true
    ⟨[], [], []⟩ rfl

/-- C4: `/addcodes` from any user other than the configured admin replies
unauthorized and changes no state: the in-memory session map is returned
unchanged, and the handler's type shows it touches no database
collection. -/
theorem c4_addcodes_unauthorized (userId adminId : Nat)
    (sessions : SessionMap) (h : userId ≠ adminId) :
    addcodesHandler userId adminId sessions = (sessions, Reply.unauthorized) := by
  have hb : (userId == adminId) = false := beq_eq_false_iff_ne.mpr h
  simp [addcodesHandler, hb]

/-- Closed instance of `c4_addcodes_unauthorized` for a non-admin caller. -/
theorem c4_addcodes_unauthorized_witness :
    addcodesHandler 99 7 [] = ([], Reply.unauthorized) :=
  c4_addcodes_unauthorized 99 7 [] (by decide)

/-- C10: a text message from a user whose session sits at the `PREVIEW`
step is consumed with no effect: the session map is unchanged, the outcome
is neither a reply nor a `next()` pass-through, and the handler has no
database access at all. -/
theorem c10_preview_text_consumed_silently (userId : Nat) (text : String)
    (rand : Nat → List (Fin 36)) (sessions : SessionMap) (s : AddCodeSession)
    (hs : Kv.get sessions userId = some s) (hstep : s.step = Step.PREVIEW) :
    textHandler userId text rand sessions = (sessions, TextOutcome.silent) := by
  simp [textHandler, hs, hstep]

/-- Closed instance of `c10_preview_text_consumed_silently` at a concrete
`PREVIEW` session. -/
theorem c10_preview_witness :
    textHandler 7 "hello" (fun _ => [])
      [(7, { step := Step.PREVIEW, count := some 1, name := some "n",
             link := some "l", codes := some ["REDM-ABCDEF"] })] =
      ([(7, { step := Step.PREVIEW, count := some 1, name := some "n",
              link := some "l", codes := some ["REDM-ABCDEF"] })],
       TextOutcome.silent) :=
  c10_preview_text_consumed_silently 7 "hello" (fun _ => []) _
    { step := Step.PREVIEW, count := some 1, name := some "n",
      link := some "l", codes := some ["REDM-ABCDEF"] } rfl rfl

/-- C9 counterexample: at `ASK_NAME` the handler does not store the input
text verbatim — the message text `" A "` is stored as `"A"`, because the
handler trims the text before storing it. -/
theorem c9_counterexample_trimmed_name :
    textHandler 7 " A " (fun _ => []) [(7, { step := Step.ASK_NAME, count := some 3 })] =
      ([(7, { step := Step.ASK_LINK, count := some 3, name := some "A" })],
       TextOutcome.reply Reply.askLink) ∧
    (" A " : String) ≠ "A" := by
  exact ⟨by decide, by decide⟩

/-- C9 (amended): at `ASK_NAME`, for every input text the handler stores
the whitespace-trimmed text (`jsTrim text`, modelling
`ctx.message.text.trim()`) verbatim as the resource name — no other
modification — and transitions the session to `ASK_LINK`. -/
theorem c9_askname_stores_trimmed (userId : Nat) (text : String)
    (rand : Nat → List (Fin 36)) (sessions : SessionMap) (s : AddCodeSession)
    (hs : Kv.get sessions userId = some s) (hstep : s.step = Step.ASK_NAME) :
    textHandler userId text rand sessions =
      (Kv.set sessions userId { s with name := some (jsTrim text), step := Step.ASK_LINK },
       TextOutcome.reply Reply.askLink) := by
  simp [textHandler, hs, hstep]

/-- Closed instance of `c9_askname_stores_trimmed`. -/
theorem c9_askname_witness :
    textHandler 7 "Premium Pack" (fun _ => [])
      [(7, { step := Step.ASK_NAME, count := some 3 })] =
      ([(7, { step := Step.ASK_LINK, count := some 3, name := some "Premium Pack" })],
       TextOutcome.reply Reply.askLink) := by
  have h := c9_askname_stores_trimmed 7 "Premium Pack" (fun _ => [])
    [(7, { step := Step.ASK_NAME, count := some 3 })]
    { step := Step.ASK_NAME, count := some 3 } rfl rfl
  rw [h]
  decide

/-- C7 counterexample: `"12abc"` is not the numeral of a positive integer
at most 50, yet at `ASK_COUNT` it does change state — JS
`parseInt("12abc")` is `12`, so the session stores count 12 and moves to
`ASK_NAME` instead of re-prompting. -/
theorem c7_counterexample_parseInt_prefix :
    denotesPosIntLe50 "12abc" = false ∧
    textHandler 7 "12abc" (fun _ => []) [(7, { step := Step.ASK_COUNT })] =
      ([(7, { step := Step.ASK_NAME, count := some 12 })],
       TextOutcome.reply Reply.askName) := by
  exact ⟨by decide, by decide⟩

/-- C7 (amended): at `ASK_COUNT` the input is interpreted with JS
`parseInt`: when the parse is `NaN` the handler re-prompts with no state
change; when it yields `n ≤ 0` or `n > 50` the handler re-prompts with no
state change; and when it yields `1 ≤ n ≤ 50` the count `n` is stored and
the session moves to `ASK_NAME` — which also happens for non-numeral inputs
with a numeric prefix, such as `"12abc"`. -/
theorem c7_askcount_parseInt (userId : Nat) (text : String)
    (rand : Nat → List (Fin 36)) (sessions : SessionMap) (s : AddCodeSession)
    (hs : Kv.get sessions userId = some s) (hstep : s.step = Step.ASK_COUNT) :
    (jsParseInt (jsTrim text) = none →
      textHandler userId text rand sessions =
        (sessions, TextOutcome.reply Reply.invalidNumber)) ∧
    (∀ n : Int, jsParseInt (jsTrim text) = some n → (n ≤ 0 ∨ 50 < n) →
      textHandler userId text rand sessions =
        (sessions, TextOutcome.reply Reply.invalidNumber)) ∧
    (∀ n : Int, jsParseInt (jsTrim text) = some n → 1 ≤ n → n ≤ 50 →
      textHandler userId text rand sessions =
        (Kv.set sessions userId { s with count := some n.toNat, step := Step.ASK_NAME },
         TextOutcome.reply Reply.askName)) := by
  refine ⟨?_, ?_, ?_⟩
  · intro h
    simp [textHandler, hs, hstep, h]
  · intro n h hrange
    simp [textHandler, hs, hstep, h, hrange]
  · intro n h h1 h50
    rw [textHandler]
    simp only [hs, hstep, h]
    rw [if_neg (by omega)]

/-- Closed instance of `c7_askcount_parseInt`: the numeral `"5"` stores
count 5 and moves the session to `ASK_NAME`. -/
theorem c7_askcount_witness :
    textHandler 7 "5" (fun _ => []) [(7, { step := Step.ASK_COUNT })] =
      ([(7, { step := Step.ASK_NAME, count := some 5 })],
       TextOutcome.reply Reply.askName) := by
  have h := (c7_askcount_parseInt 7 "5" (fun _ => [])
    [(7, { step := Step.ASK_COUNT })] { step := Step.ASK_COUNT }
    rfl rfl).2.2 5 (by decide) (by decide) (by decide)
  rw [h]
  decide

/-- C5: confirming a preview with a session holding `cnt` codes either
appends the whole batch — one `AccessCode` per in-memory code, each with
`isUsed = false`, the stored name and the stored link — and deletes the
admin's session, or (when the batch commit fails) appends nothing, reports
a database error, and leaves the session map — including the same in-memory
code sequence — completely unchanged, so confirm can be retried. -/
theorem c5_confirm_all_or_nothing (adminId now : Nat) (sessions : SessionMap)
    (st : FireStore) (s : AddCodeSession) (cnt : Nat) (name link : String)
    (codes : List String)
    (hs : Kv.get sessions adminId = some s)
    (hcodes : s.codes = some codes) (hname : s.name = some name)
    (hlink : s.link = some link) (hcount : s.count = some cnt)
    (hlen : codes.length = cnt) :
    (confirmAddHandler adminId now true sessions st =
      (Kv.del sessions adminId,
       { st with access_codes := st.access_codes ++ batchDocs codes name link now },
       Reply.addedCodes (some cnt) name)) ∧
    (batchDocs codes name link now).length = cnt ∧
    (∀ d ∈ batchDocs codes name link now,
        d.isUsed = false ∧ d.resourceName = name ∧ d.downloadUrl = link) ∧
    (confirmAddHandler adminId now false sessions st =
      (sessions, st, Reply.dbError)) := by
  refine ⟨?_, ?_, ?_, ?_⟩
  · simp [confirmAddHandler, hs, hcodes, hname, hlink, hcount]
  · simp [batchDocs, hlen]
  · intro d hd
    simp only [batchDocs, List.mem_map] at hd
    obtain ⟨c, hc, rfl⟩ := hd
    exact ⟨rfl, rfl, rfl⟩
  · simp [confirmAddHandler, hs, hcodes, hname, hlink]

/-- Closed instance of `c5_confirm_all_or_nothing` for a one-code session
over an empty store. -/
theorem c5_confirm_witness :
    (confirmAddHandler 7 9 true
      [(7, { step := Step.PREVIEW, count := some 1, name := some "Pack",
             link := some "http:x", codes := some ["REDM-ABCDEF"] })]
      ⟨[], [], []⟩ =
      ([], ⟨[], [], [{ code := "REDM-ABCDEF", resourceName := "Pack",
                       downloadUrl := "http:x", isUsed := false, created_at := 9 }]⟩,
       Reply.addedCodes (some 1) "Pack")) ∧
    (confirmAddHandler 7 9 false
      [(7, { step := Step.PREVIEW, count := some 1, name := some "Pack",
             link := some "http:x", codes := some ["REDM-ABCDEF"] })]
      ⟨[], [], []⟩ =
      ([(7, { step := Step.PREVIEW, count := some 1, name := some "Pack",
              link := some "http:x", codes := some ["REDM-ABCDEF"] })],
       ⟨[], [], []⟩, Reply.dbError)) := by
  have h := c5_confirm_all_or_nothing 7 9
    [(7, { step := Step.PREVIEW, count := some 1, name := some "Pack",
           link := some "http:x", codes := some ["REDM-ABCDEF"] })]
    ⟨[], [], []⟩
    { step := Step.PREVIEW, count := some 1, name := some "Pack",
      link := some "http:x", codes := some ["REDM-ABCDEF"] }
    1 "Pack" "http:x" ["REDM-ABCDEF"] rfl rfl rfl rfl rfl rfl
  refine ⟨?_, ?_⟩
  · rw [h.1]
    rfl
  · rw [h.2.2.2]

/-- C1: for every non-empty payload `p`, `start(userId, p)` followed
immediately by a matching contact share leaves exactly one OtpSession
record at key `p` — with the fresh OTP, `telegram_id = userId`,
`phone_number = phone` and `verified = false` — deletes the
PendingVerification record at key `userId`, and replies with the OTP. -/
theorem c1_start_then_contact (userId : Nat) (p phone first : String)
    (last usern : Option String) (r : Fin 900000) (now1 now2 : Nat)
    (st0 : FireStore) (hp : p ≠ "") :
    let st1 := (startHandler userId p now1 true st0).1
    let res := contactHandler userId first last usern userId phone r now2
      ⟨true, true, true⟩ st1
    Kv.countKey res.1.otp_sessions p = 1 ∧
    Kv.get res.1.otp_sessions p = some
      { otp := generateOTP r, telegram_id := userId,
        telegram_name := joinName first last,
        telegram_username := usernameOr usern,
        phone_number := phone, verified := false, created_at := now2 } ∧
    Kv.get res.1.pending_verifications (jsNumToString userId) = none ∧
    res.2 = Reply.otpSuccess (generateOTP r) := by
  have hps : (p == "") = false := beq_eq_false_iff_ne.mpr hp
  simp only [startHandler, hps, Bool.false_eq_true, if_false, contactHandler,
    beq_self_eq_true, Bool.not_true, Kv.get_set_self, Bool.not_false, if_true]
  simp [Kv.countKey_set, Kv.get_set_self, Kv.get_del_self]

/-- Closed instance of `c1_start_then_contact` on an empty store. -/
theorem c1_start_then_contact_witness :
    let st1 := (startHandler 1 "sess" 0 true ⟨[], [], []⟩).1
    let res := contactHandler 1 "F" none none 1 "+49" ⟨0, by decide⟩ 2
      ⟨true, true, true⟩ st1
    Kv.countKey res.1.otp_sessions "sess" = 1 ∧
    Kv.get res.1.otp_sessions "sess" = some
      { otp := generateOTP ⟨0, by decide⟩, telegram_id := 1,
        telegram_name := joinName "F" none,
        telegram_username := usernameOr none,
        phone_number := "+49", verified := false, created_at := 2 } ∧
    Kv.get res.1.pending_verifications (jsNumToString 1) = none ∧
    res.2 = Reply.otpSuccess (generateOTP ⟨0, by decide⟩) :=
  c1_start_then_contact 1 "sess" "+49" "F" none none ⟨0, by decide⟩ 0 2
    ⟨[], [], []⟩ (by decide)

/-- C6: evaluation of the access-code generator at the failing input
`Math.random() = 0.5` — whose `toString(36)` output is `"0.i"`, a single
base-36 fractional digit 18 — yields `"REDM-I"`, which does not match the
pattern `REDM-` followed by exactly six characters from `A`–`Z0`–`9`; a
six-digit random expansion does produce a matching code, and the batch
built at `ASK_LINK` always has exactly `count` codes. -/
theorem c6_generateResourceCode_short :
    generateResourceCode [⟨18, by decide⟩] = "REDM-I" ∧
    matchesCodePattern "REDM-I" = false ∧
    matchesCodePattern (generateResourceCode [⟨10, by decide⟩, ⟨1, by decide⟩,
      ⟨11, by decide⟩, ⟨2, by decide⟩, ⟨12, by decide⟩, ⟨3, by decide⟩]) = true ∧
    (∀ count : Nat, ∀ rand : Nat → List (Fin 36),
      ((List.range count).map (fun i => generateResourceCode (rand i))).length = count) := by
  refine ⟨by decide, by decide, by decide, ?_⟩
  intro count rand
  simp
